import Mathlib

/-!
Verification development for the documentation-splicing engine of
`GraduateWork/documentation_generator.py`.

The Python code is shallowly embedded:

* Python AST nodes (`ast.Module`, `ast.ClassDef`, `ast.FunctionDef`, other
  statements) become the inductive `PyNode`, carrying a kind, an identifier
  (standing in for Python object identity — in CPython AST nodes compare by
  identity, so two distinct nodes are never equal; we use distinct idents in
  all concrete examples), and the ordered list of child nodes.
* `ast.walk` (a FIFO breadth-first traversal) together with the
  parent-annotation pass of `generate_docs_for_code_from_file` (lines
  131-133) becomes `walkFrom` / `ast_walk`, which pairs every visited node
  with its immediate parent (`none` for the module root).  The Python code
  stores `child.parent = node` in a separate pass before the selection walk;
  fusing the two passes yields the same node/parent pairs because the
  selection walk only reads annotations written by that earlier pass.
* The OpenAI call becomes an abstract generation stub `gen : Nat → GenResult`
  giving the outcome of the k-th service call, and `astcom.parse` applied to
  generated text becomes a stub `parseStub : String → Option PyNode`
  (returning the parsed `Module` node, or `none` for a `SyntaxError`).
* The unbounded recursion of `generate_docs_for_block_and_change_node` is
  modelled with explicit fuel; exhausting fuel is a distinguished outcome
  (`Fatal.fuelExhausted`) never conflated with the Python exceptions.
* Observable side effects (generation calls, `time.sleep`, printed
  diagnostics) are recorded in a `Trace`.
-/

namespace GraduateWork

/-- The node kinds that the selection logic of
`generate_docs_for_code_from_file` distinguishes via `isinstance`. -/
inductive NodeKind where
  | module
  | classDef
  | functionDef
  | other
deriving DecidableEq, Repr

/-- A Python AST node: its kind, an identifier standing in for object
identity, and its ordered children (`ast.iter_child_nodes`). -/
inductive PyNode where
  | mk (kind : NodeKind) (ident : String) (children : List PyNode)

mutual

/-- Boolean structural equality on nodes (deriving does not handle the
nested occurrence of `List PyNode`). -/
def PyNode.beq : PyNode → PyNode → Bool
  | .mk k1 i1 cs1, .mk k2 i2 cs2 =>
      decide (k1 = k2) && decide (i1 = i2) && PyNode.beqList cs1 cs2

/-- Boolean structural equality on lists of nodes. -/
def PyNode.beqList : List PyNode → List PyNode → Bool
  | [], [] => true
  | n :: ns, m :: ms => PyNode.beq n m && PyNode.beqList ns ms
  | _, _ => false

end

mutual

theorem PyNode.beq_iff : ∀ a b : PyNode, PyNode.beq a b = true ↔ a = b
  | .mk k1 i1 cs1, .mk k2 i2 cs2 => by
    simp only [PyNode.beq, Bool.and_eq_true, decide_eq_true_eq, PyNode.mk.injEq]
    rw [PyNode.beqList_iff cs1 cs2]
    tauto

theorem PyNode.beqList_iff : ∀ a b : List PyNode, PyNode.beqList a b = true ↔ a = b
  | [], [] => by simp [PyNode.beqList]
  | [], _ :: _ => by simp [PyNode.beqList]
  | _ :: _, [] => by simp [PyNode.beqList]
  | n :: ns, m :: ms => by
    simp only [PyNode.beqList, Bool.and_eq_true, List.cons.injEq]
    rw [PyNode.beq_iff n m, PyNode.beqList_iff ns ms]

end

instance : DecidableEq PyNode :=
  fun a b => decidable_of_iff (PyNode.beq a b = true) (PyNode.beq_iff a b)

/-- The kind of a node. -/
def PyNode.kind : PyNode → NodeKind
  | .mk k _ _ => k

/-- The identity tag of a node. -/
def PyNode.ident : PyNode → String
  | .mk _ i _ => i

/-- The ordered children of a node (`ast.iter_child_nodes`). -/
def PyNode.children : PyNode → List PyNode
  | .mk _ _ cs => cs

mutual

/-- Structural size of a node, used as the termination measure of the
breadth-first walk. -/
def PyNode.size : PyNode → Nat
  | .mk _ _ cs => 1 + PyNode.sizeList cs

/-- Total structural size of a list of nodes. -/
def PyNode.sizeList : List PyNode → Nat
  | [] => 0
  | n :: ns => PyNode.size n + PyNode.sizeList ns

end

/-- Total size of a breadth-first work queue of (node, parent) pairs. -/
def queueSize (q : List (PyNode × Option PyNode)) : Nat :=
  (q.map fun pr => pr.1.size).sum

theorem queueSize_nil : queueSize [] = 0 := rfl

theorem queueSize_cons (x : PyNode × Option PyNode) (q : List (PyNode × Option PyNode)) :
    queueSize (x :: q) = x.1.size + queueSize q := by
  simp [queueSize]

theorem queueSize_append (a b : List (PyNode × Option PyNode)) :
    queueSize (a ++ b) = queueSize a + queueSize b := by
  simp [queueSize]

theorem queueSize_map (n : PyNode) (l : List PyNode) :
    queueSize (l.map fun c => (c, some n)) = PyNode.sizeList l := by
  induction l with
  | nil => rfl
  | cons c cs ih => simp only [List.map, queueSize_cons, ih, PyNode.sizeList]

theorem sizeList_lt_size (n : PyNode) : PyNode.sizeList n.children < n.size := by
  cases n with
  | mk k i cs => simp [PyNode.size, PyNode.children]

/-- Model of `ast.walk`, fused with the parent annotation: a FIFO breadth-first
traversal yielding every node paired with its immediate parent.  Mirrors
CPython's `ast.walk`: pop the front of the queue, yield it, append its
children.  The module root carries parent `none` (in Python the root simply
has no `parent` attribute set). -/
def walkFrom : List (PyNode × Option PyNode) → List (PyNode × Option PyNode)
  | [] => []
  | (n, p) :: rest =>
      (n, p) :: walkFrom (rest ++ n.children.map fun c => (c, some n))
termination_by q => queueSize q
decreasing_by
  simp only [queueSize_cons, queueSize_append, queueSize_map]
  have := sizeList_lt_size n
  omega

theorem walkFrom_nil : walkFrom [] = [] := by
  simp [walkFrom]

theorem walkFrom_cons (n : PyNode) (p : Option PyNode)
    (rest : List (PyNode × Option PyNode)) :
    walkFrom ((n, p) :: rest)
      = (n, p) :: walkFrom (rest ++ n.children.map fun c => (c, some n)) := by
  simp [walkFrom]

/-- All (node, parent) pairs of a tree in `ast.walk` order. -/
def ast_walk (t : PyNode) : List (PyNode × Option PyNode) :=
  walkFrom [(t, none)]

/-- Model of `DocumentationGenerator.is_method`: `isinstance(function_node.parent,
ast.ClassDef)`.  The parent annotation is carried alongside the node; the
only node without a parent is the module root, which the Python code never
queries (it is neither a `ClassDef` nor a `FunctionDef`). -/
def is_method (parent : Option PyNode) : Bool :=
  match parent with
  | some q => decide (q.kind = .classDef)
  | none => false

/-- The selection test of the `ast.walk` loop in
`generate_docs_for_code_from_file` (lines 136-144): `if isinstance(node,
ast.ClassDef)` select, `elif isinstance(node, ast.FunctionDef) and (not
self.is_method(node, tree))` select, else skip. -/
def selectNode (pr : PyNode × Option PyNode) : Option PyNode :=
  if pr.1.kind = .classDef then some pr.1
  else if pr.1.kind = .functionDef ∧ is_method pr.2 = false then some pr.1
  else none

/-- The ordered list of entities that the `ast.walk` loop passes to
`generate_docs_for_block_and_change_node`, in walk order.  (`ast.walk`
enqueues all of the module's children on its first step, before any splice
mutates `tree.body`, so the walked nodes are those of the original tree.) -/
def selectedEntities (t : PyNode) : List PyNode :=
  (ast_walk t).filterMap selectNode

/-- Outcome of one OpenAI `ChatCompletion.create` call as observed by
`generate_docs_for_block_and_change_node`: a generated text, a
`RateLimitError`, or any other service exception. -/
inductive GenResult where
  | ok (text : String)
  | rateLimited
  | serviceError
deriving DecidableEq, Repr

/-- Record of the observable side effects of a run: number of generation
calls made, number of printed rate-limit notices (`Rate limit exceeded...`),
number of printed parse-failure notices (`Syntax error: ...`), and the
`time.sleep` durations in order. -/
structure Trace where
  calls : Nat
  rlNotices : Nat
  parseNotices : Nat
  sleeps : List Nat
deriving DecidableEq, Repr

/-- Sequential composition of traces. -/
def Trace.append (a b : Trace) : Trace :=
  ⟨a.calls + b.calls, a.rlNotices + b.rlNotices,
   a.parseNotices + b.parseNotices, a.sleeps ++ b.sleeps⟩

/-- The empty trace. -/
def Trace.empty : Trace := ⟨0, 0, 0, []⟩

/-- Uncaught Python exceptions terminating the processing of an entity, plus
the fuel-exhaustion marker standing in for non-termination of the unbounded
recursive retry. -/
inductive Fatal where
  | rateLimited
  | serviceError
  | valueError
  | fuelExhausted
deriving DecidableEq, Repr

/-- Result of a single invocation body of
`generate_docs_for_block_and_change_node` (one attempt, before any recursive
retry): a successful splice producing the new module body, a caught
`SyntaxError` on the generated text, or an uncaught exception. -/
inductive AttemptResult where
  | spliced (newBody : List PyNode)
  | parseFailed
  | fatal (e : Fatal)
deriving DecidableEq

/-- Result of a full (possibly retrying) run. -/
inductive Outcome where
  | done (body : List PyNode) (t : Trace)
  | fatal (e : Fatal) (t : Trace)
deriving DecidableEq

/-- Prepend the trace of an earlier attempt to an outcome's trace. -/
def prependTrace (a : Trace) : Outcome → Outcome
  | .done b t => .done b (a.append t)
  | .fatal e t => .fatal e (a.append t)

/-- Model of the Python `list.index` method: index of the first element equal to `x`
(`none` models the `ValueError` raised when `x` is absent). -/
def pyIndex (l : List PyNode) (x : PyNode) : Option Nat :=
  match l with
  | [] => none
  | y :: ys => if y = x then some 0 else (pyIndex ys x).map (· + 1)

/-- Lines 113-115 of `generate_docs_for_block_and_change_node`:
`old_node_index = tree.body.index(node)` (may raise `ValueError`), then
`tree.body[old_node_index] = astcom.parse(result)`.  The right-hand side is
evaluated first, so a `SyntaxError` from `astcom.parse` prevents the
assignment entirely (`.parseFailed` carries no body). -/
def spliceStep (parseStub : String → Option PyNode)
    (body : List PyNode) (node : PyNode) (s : String) : AttemptResult :=
  match pyIndex body node with
  | none => .fatal .valueError
  | some i =>
    match parseStub s with
    | some m => .spliced (body.set i m)
    | none => .parseFailed

/-- Result of the generation phase: either the generated text or the
uncaught exception that terminates the entity. -/
inductive GenOutcome where
  | text (s : String)
  | fail (e : Fatal)
deriving DecidableEq, Repr

/-- The `try`/`except RateLimitError` generation step of
`generate_docs_for_block_and_change_node` (lines 106-111): call
`generate_docs`; on `RateLimitError` print a notice, `time.sleep(21)` and
call `generate_docs` exactly once more; a second `RateLimitError` (or any
other service error) propagates uncaught.  `gen k` is the outcome of the
k-th generation call of the run; the trace records the calls, the printed
rate-limit notice and the sleep of this phase. -/
def genPhase (gen : Nat → GenResult) (k : Nat) : GenOutcome × Trace :=
  match gen k with
  | .ok s => (.text s, ⟨1, 0, 0, []⟩)
  | .serviceError => (.fail .serviceError, ⟨1, 0, 0, []⟩)
  | .rateLimited =>
    match gen (k + 1) with
    | .ok s => (.text s, ⟨2, 1, 0, [21]⟩)
    | .rateLimited => (.fail .rateLimited, ⟨2, 1, 0, [21]⟩)
    | .serviceError => (.fail .serviceError, ⟨2, 1, 0, [21]⟩)

/-- One attempt of `generate_docs_for_block_and_change_node` (lines
106-118): the generation phase, then the index lookup and splice.
`parseStub` models `astcom.parse` on generated text.  The trace records the
side effects of this attempt, including the `Syntax error`/`Repeated demand` diagnostic when the parse of the generated text fails. -/
def attemptEntity (gen : Nat → GenResult) (parseStub : String → Option PyNode)
    (body : List PyNode) (node : PyNode) (k : Nat) : AttemptResult × Trace :=
  match genPhase gen k with
  | (.fail e, t) => (.fatal e, t)
  | (.text s, t) =>
    match spliceStep parseStub body node s with
    | .parseFailed => (AttemptResult.parseFailed, t.append ⟨0, 0, 1, []⟩)
    | r => (r, t)

/-- Model of `generate_docs_for_block_and_change_node(tree, node)`: one attempt, and
on a caught `SyntaxError` the unbounded recursive retry
(`self.generate_docs_for_block_and_change_node(tree, node, debug)`) on the
unchanged tree.  The recursion is modelled with fuel; running out of fuel is
the distinguished outcome `Fatal.fuelExhausted`.  The first `Nat` argument
is the fuel, the second the index of the next generation call. -/
def generate_docs_for_block_and_change_node (gen : Nat → GenResult)
    (parseStub : String → Option PyNode) (body : List PyNode) (node : PyNode) :
    Nat → Nat → Outcome
  | 0, _ => .fatal .fuelExhausted Trace.empty
  | fuel + 1, k =>
    match attemptEntity gen parseStub body node k with
    | (.spliced b, t) => .done b t
    | (.fatal e, t) => .fatal e t
    | (.parseFailed, t) =>
        prependTrace t
          (generate_docs_for_block_and_change_node gen parseStub body node fuel
            (k + t.calls))

/-- The entity loop of `generate_docs_for_code_from_file` (lines 136-144):
process the selected entities in walk order, threading the module body; the
first uncaught exception aborts the whole loop. -/
def processAll (gen : Nat → GenResult) (parseStub : String → Option PyNode) :
    List PyNode → List PyNode → Nat → Nat → Outcome
  | body, [], _, _ => .done body Trace.empty
  | body, node :: rest, fuel, k =>
    match generate_docs_for_block_and_change_node gen parseStub body node fuel k with
    | .done b t => prependTrace t (processAll gen parseStub b rest fuel (k + t.calls))
    | .fatal e t => .fatal e t

/-- Outcome of `generate_docs_for_code_from_file` on one source unit.
`written` is the only outcome in which the file is reopened in write mode
and overwritten (lines 145-147); `inputParseError` models the propagated
parse error of `astcom.parse(source_code)` on line 130. -/
inductive FileOutcome where
  | written (body : List PyNode) (t : Trace)
  | inputParseError (t : Trace)
  | fatalError (e : Fatal) (t : Trace)
deriving DecidableEq

/-- Model of `generate_docs_for_code_from_file(file_path)`: read the source, parse it
(a failure propagates before any generation call and before the file is
reopened for writing), annotate parents, select entities via `ast.walk`,
splice each in order, and only then overwrite the file with the rendered
tree.  `parseSource` models `astcom.parse(source_code, type_comments=True)`
on the file's text. -/
def generate_docs_for_code_from_file (parseSource : String → Option PyNode)
    (gen : Nat → GenResult) (parseStub : String → Option PyNode)
    (source : String) (fuel : Nat) : FileOutcome :=
  match parseSource source with
  | none => .inputParseError Trace.empty
  | some tree =>
    match processAll gen parseStub tree.children (selectedEntities tree) fuel 0 with
    | .done b t => .written b t
    | .fatal e t => .fatalError e t

/-- Number of top-level statements obtained by re-parsing
`astcom.unparse(tree)` for a mutated tree whose body is `body`.  A spliced
slot holds a whole `Module` node (line 115 assigns `astcom.parse(result)`,
not a single statement); the unparser inlines a nested module's body at top
level, so such a slot contributes as many statements as the replacement
module has children, while every other statement round-trips to exactly one
statement. -/
def renderedTopLevelCount (body : List PyNode) : Nat :=
  (body.map fun n =>
    match n.kind with
    | .module => n.children.length
    | _ => 1).sum

/-- The configuration state of `DocumentationGenerator` relevant to the
claims: the `language` and `ignored_dirs` attributes set in `__init__`
(the `openai.api_key` global assignment has no bearing on any claim). -/
structure DocumentationGenerator where
  language : String
  ignored_dirs : List String
deriving DecidableEq, Repr

/-- Model of `DocumentationGenerator.__init__(language, api_key)`: sets `language`
and the literal `ignored_dirs` list of line 49. -/
def DocumentationGenerator.init (language : String) : DocumentationGenerator :=
  ⟨language,
   [".git", ".idea", "__pycache__", "venv", ".vscode", "dist", "build",
    "*.pyc", "*.pyo", "*.pyd", "*.pyz", "*.pyw", "*.egg-info", "*.egg",
    "*.dist-info"]⟩

/-- First half of the fixed prompt of `_get_prompt` (line 84), up to the
embedded code block. -/
def promptHead : String :=
  "You task is to write docstrings for a given code block. I need to document a function, class, module. Write me a docstring that describes what the function, class, module does, what parameters it accepts and returns, and what exceptions may occur during its execution. Also, please make sure that the documentation complies with the PEP 257 standards. The code should not be modified, only the docstrings should be added. Once the docstring is added, please send me the updated code block with the new documentation.. For the following Python code:\n\n"

/-- Second half of the fixed prompt of `_get_prompt` (line 84), after the
embedded code block. -/
def promptTail : String :=
  "\n\nYou must return the result as code, DON\x27T DELETE a single line of code"

/-- Model of `DocumentationGenerator._get_prompt(code)`: the fixed Python prompt with
the code embedded when the language equals `Python`; the function body has no
other branch, so any other language yields Python's implicit `None`. -/
def get_prompt (g : DocumentationGenerator) (code : String) : Option String :=
  if g.language = "Python" then some (promptHead ++ code ++ promptTail)
  else none

/-- The request payload of `openai.ChatCompletion.create` as built by
`generate_docs` (line 70): model identifier, `max_tokens`, `temperature`
(an exact rational, there is no floating-point arithmetic on it), and the
role-tagged message list (a message content is `Option String` because
`_get_prompt` returns `None` for a non-Python language). -/
structure ChatRequest where
  model : String
  max_tokens : Nat
  temperature : Rat
  messages : List (String × Option String)
deriving DecidableEq, Repr

/-- Model of `DocumentationGenerator.generate_docs(code)` (lines 59-72): build the
prompt, wrap it in a single user-role message, issue exactly one
`ChatCompletion.create` call, and return the first choice's message content
stripped of surrounding whitespace (`answer.strip()`, modelled by
`String.trim`; `head? = none` models the `IndexError` on an empty choice
list).  `service` maps a request to the list of choice message contents;
the second component of the result is the list of requests issued, in
order. -/
def generate_docs (service : ChatRequest → List String)
    (g : DocumentationGenerator) (code : String) :
    Option String × List ChatRequest :=
  let prompt := get_prompt g code
  let message := [("user", prompt)]
  let req : ChatRequest := ⟨"gpt-3.5-turbo", 2048, 1.2, message⟩
  ((service req).head?.map String.trim, [req])

/-- Model of `DocumentationGenerator.is_ignored_directory(directory_name)`:
`directory_name in self.ignored_dirs` — plain list membership under string
equality, with no pattern matching. -/
def is_ignored_directory (g : DocumentationGenerator)
    (directory_name : String) : Bool :=
  g.ignored_dirs.contains directory_name

/-! ### Concrete fixtures used by witnesses and counterexamples -/

/-- A plain top-level statement. -/
def stmtA : PyNode := .mk .other "a" []

/-- A nested function definition (its parent below is a function). -/
def fnG : PyNode := .mk .functionDef "g" []

/-- A top-level function definition containing the nested function `fnG`. -/
def fnF : PyNode := .mk .functionDef "f" [fnG]

/-- A module whose only statement is `fnF`, which itself contains the
nested function `fnG` — the shape `def f(): def g(): ...`. -/
def exTreeNestedFn : PyNode := .mk .module "m" [fnF]

/-- A top-level function with no nested entities. -/
def fnTop : PyNode := .mk .functionDef "top" []

/-- A class definition with no nested entities. -/
def clsC : PyNode := .mk .classDef "C" []

/-- A method node (parent below is the class `clsD`). -/
def methM : PyNode := .mk .functionDef "meth" []

/-- A class containing the method `methM`. -/
def clsD : PyNode := .mk .classDef "D" [methM]

/-- Module for the selection witness: a statement, a top-level function and
a class with a method. -/
def exTreeSel : PyNode := .mk .module "ms" [stmtA, fnTop, clsD]

/-- A nested class (parent below is the class `clsA`). -/
def clsB : PyNode := .mk .classDef "B" []

/-- A class containing the nested class `clsB`. -/
def clsA : PyNode := .mk .classDef "A" [clsB]

/-- Module whose only statement is a class containing a nested class — the
shape `class A: class B: ...`. -/
def exTreeNestedCls : PyNode := .mk .module "mc" [clsA]

/-- A module body with a plain statement and one documentable function. -/
def exBody : List PyNode := [stmtA, fnTop]

/-- A single-statement replacement unit, as returned by `astcom.parse` on a
generated text consisting of one documented definition. -/
def docMod1 : PyNode := .mk .module "r1" [.mk .functionDef "topDoc" []]

/-- A two-statement replacement unit, as returned by `astcom.parse` on a
generated text containing two top-level statements. -/
def docMod2 : PyNode :=
  .mk .module "r2" [.mk .functionDef "d1" [], .mk .other "d2" []]

/-- Generation stub: every call succeeds, returning a text tagged with the
call index. -/
def genAllOk : Nat → GenResult := fun k => .ok ("t" ++ toString k)

/-- Generation stub: the first call raises `RateLimitError`, every later
call succeeds. -/
def genRLOnce : Nat → GenResult := fun k =>
  if k = 0 then .rateLimited else .ok ("t" ++ toString k)

/-- Generation stub: every call raises `RateLimitError`. -/
def genRLAlways : Nat → GenResult := fun _ => .rateLimited

/-- Parse stub: every generated text parses to the one-statement unit. -/
def parseOk1 : String → Option PyNode := fun _ => some docMod1

/-- Parse stub: every generated text parses to the two-statement unit. -/
def parseOk2 : String → Option PyNode := fun _ => some docMod2

/-- Parse stub: every generated text fails to parse. -/
def parseFailAll : String → Option PyNode := fun _ => none

/-- Parse stub: the text of call 0 fails to parse, all others succeed. -/
def parseAfterOne : String → Option PyNode := fun s =>
  if s = "t0" then none else some docMod1

/-- Source-parse stub for the file pipeline: `"sel"` parses to `exTreeSel`,
`"nested"` to `exTreeNestedCls`, anything else is a syntax error in the
input file. -/
def parseSourceStub : String → Option PyNode := fun s =>
  if s = "sel" then some exTreeSel
  else if s = "nested" then some exTreeNestedCls
  else none

/-- Service stub for `generate_docs`: one choice whose content has
surrounding whitespace. -/
def serviceEcho : ChatRequest → List String := fun _ => ["  answer  "]

/-! ### Helper lemmas -/

theorem selectNode_class {n : PyNode} {p : Option PyNode} (h : n.kind = .classDef) :
    selectNode (n, p) = some n := by
  simp [selectNode, h]

theorem selectNode_fn {n : PyNode} {p : Option PyNode} (h : n.kind = .functionDef)
    (hm : is_method p = false) : selectNode (n, p) = some n := by
  simp [selectNode, h, hm]

theorem mem_selectedEntities {t n : PyNode} {p : Option PyNode}
    (hw : (n, p) ∈ ast_walk t) (hs : selectNode (n, p) = some n) :
    n ∈ selectedEntities t := by
  rw [selectedEntities, List.mem_filterMap]
  exact ⟨(n, p), hw, hs⟩

theorem pyIndex_spec : ∀ (l : List PyNode) (x : PyNode) (i : Nat),
    pyIndex l x = some i → i < l.length ∧ l.get? i = some x := by
  intro l
  induction l with
  | nil => intro x i h; simp [pyIndex] at h
  | cons y ys ih =>
    intro x i h
    by_cases heq : y = x
    · simp only [pyIndex, if_pos heq, Option.some.injEq] at h
      subst h
      exact ⟨Nat.succ_pos _, by simp [heq]⟩
    · simp only [pyIndex, if_neg heq, Option.map_eq_some'] at h
      obtain ⟨j, hj, rfl⟩ := h
      obtain ⟨h1, h2⟩ := ih x j hj
      exact ⟨by simpa using Nat.succ_lt_succ h1, by simpa using h2⟩

theorem spliceStep_spliced {parseStub : String → Option PyNode}
    {body : List PyNode} {node : PyNode} {s : String} {b' : List PyNode}
    (h : spliceStep parseStub body node s = .spliced b') :
    ∃ i m, pyIndex body node = some i ∧ parseStub s = some m ∧ b' = body.set i m := by
  unfold spliceStep at h
  cases hi : pyIndex body node with
  | none => rw [hi] at h; simp at h
  | some i =>
    rw [hi] at h
    cases hp : parseStub s with
    | none => rw [hp] at h; simp at h
    | some m =>
      rw [hp] at h
      exact ⟨i, m, rfl, rfl, (AttemptResult.spliced.inj h).symm⟩

theorem spliceStep_fatal {parseStub : String → Option PyNode}
    {body : List PyNode} {node : PyNode} {s : String} {e : Fatal}
    (h : spliceStep parseStub body node s = .fatal e) : e = .valueError := by
  unfold spliceStep at h
  cases hi : pyIndex body node with
  | none => rw [hi] at h; exact (AttemptResult.fatal.inj h).symm
  | some i =>
    rw [hi] at h
    cases hp : parseStub s with
    | some m => rw [hp] at h; simp at h
    | none => rw [hp] at h; simp at h

theorem attemptEntity_spliced_inv {gen : Nat → GenResult}
    {parseStub : String → Option PyNode} {body : List PyNode} {node : PyNode}
    {k : Nat} {b' : List PyNode} {t : Trace}
    (h : attemptEntity gen parseStub body node k = (.spliced b', t)) :
    ∃ i m, pyIndex body node = some i ∧ b' = body.set i m := by
  cases hg : genPhase gen k with
  | mk o t0 =>
    cases o with
    | fail e => simp [attemptEntity, hg] at h
    | text s =>
      cases hs : spliceStep parseStub body node s with
      | parseFailed => simp [attemptEntity, hg, hs] at h
      | fatal e => simp [attemptEntity, hg, hs] at h
      | spliced b2 =>
        simp only [attemptEntity, hg, hs, Prod.mk.injEq,
          AttemptResult.spliced.injEq] at h
        obtain ⟨i, m, hi, hp, rfl⟩ := spliceStep_spliced hs
        exact ⟨i, m, hi, h.1.symm⟩

theorem gdbc_done_length {gen : Nat → GenResult} {parseStub : String → Option PyNode}
    {body : List PyNode} {node : PyNode} :
    ∀ {fuel k : Nat} {b : List PyNode} {t : Trace},
      generate_docs_for_block_and_change_node gen parseStub body node fuel k = .done b t →
      b.length = body.length := by
  intro fuel
  induction fuel with
  | zero => intro k b t h; simp [generate_docs_for_block_and_change_node] at h
  | succ fuel ih =>
    intro k b t h
    rw [generate_docs_for_block_and_change_node] at h
    cases ha : attemptEntity gen parseStub body node k with
    | mk r t1 =>
      cases r with
      | spliced b2 =>
        simp only [ha, Outcome.done.injEq] at h
        obtain ⟨rfl, rfl⟩ := h
        obtain ⟨i, m, hi, rfl⟩ := attemptEntity_spliced_inv ha
        exact List.length_set ..
      | fatal e => simp [ha] at h
      | parseFailed =>
        simp only [ha] at h
        cases hrec : generate_docs_for_block_and_change_node gen parseStub body node fuel
            (k + t1.calls) with
        | done b3 t3 =>
          rw [hrec] at h
          simp only [prependTrace, Outcome.done.injEq] at h
          obtain ⟨rfl, rfl⟩ := h
          exact ih hrec
        | fatal e3 t3 =>
          rw [hrec] at h
          simp [prependTrace] at h

theorem processAll_done_length {gen : Nat → GenResult}
    {parseStub : String → Option PyNode} :
    ∀ {nodes : List PyNode} {body : List PyNode} {fuel k : Nat} {b : List PyNode}
      {t : Trace},
      processAll gen parseStub body nodes fuel k = .done b t → b.length = body.length := by
  intro nodes
  induction nodes with
  | nil =>
    intro body fuel k b t h
    simp only [processAll, Outcome.done.injEq] at h
    rw [← h.1]
  | cons nd rest ih =>
    intro body fuel k b t h
    rw [processAll] at h
    cases hr : generate_docs_for_block_and_change_node gen parseStub body nd fuel k with
    | fatal e1 t1 => simp [hr] at h
    | done b1 t1 =>
      simp only [hr] at h
      cases hrest : processAll gen parseStub b1 rest fuel (k + t1.calls) with
      | fatal e2 t2 => rw [hrest] at h; simp [prependTrace] at h
      | done b2 t2 =>
        rw [hrest] at h
        simp only [prependTrace, Outcome.done.injEq] at h
        obtain ⟨rfl, rfl⟩ := h
        exact (ih hrest).trans (gdbc_done_length hr)

theorem gdbc_done_splice {gen : Nat → GenResult} {parseStub : String → Option PyNode}
    {body : List PyNode} {node : PyNode} :
    ∀ {fuel k : Nat} {b : List PyNode} {t : Trace},
      generate_docs_for_block_and_change_node gen parseStub body node fuel k = .done b t →
      ∃ i m, pyIndex body node = some i ∧ b = body.set i m := by
  intro fuel
  induction fuel with
  | zero => intro k b t h; simp [generate_docs_for_block_and_change_node] at h
  | succ fuel ih =>
    intro k b t h
    rw [generate_docs_for_block_and_change_node] at h
    cases ha : attemptEntity gen parseStub body node k with
    | mk r t1 =>
      cases r with
      | spliced b2 =>
        simp only [ha, Outcome.done.injEq] at h
        obtain ⟨rfl, rfl⟩ := h
        exact attemptEntity_spliced_inv ha
      | fatal e => simp [ha] at h
      | parseFailed =>
        simp only [ha] at h
        cases hrec : generate_docs_for_block_and_change_node gen parseStub body node fuel
            (k + t1.calls) with
        | done b3 t3 =>
          rw [hrec] at h
          simp only [prependTrace, Outcome.done.injEq] at h
          obtain ⟨rfl, rfl⟩ := h
          exact ih hrec
        | fatal e3 t3 =>
          rw [hrec] at h
          simp [prependTrace] at h

theorem gdbc_done_frame {gen : Nat → GenResult} {parseStub : String → Option PyNode}
    {body : List PyNode} {node : PyNode} {fuel k : Nat} {b : List PyNode} {t : Trace}
    (h : generate_docs_for_block_and_change_node gen parseStub body node fuel k = .done b t)
    {j : Nat} {x : PyNode} (hj : body.get? j = some x) (hx : x ≠ node) :
    b.get? j = some x := by
  obtain ⟨i, m, hi, rfl⟩ := gdbc_done_splice h
  obtain ⟨hlt, hget⟩ := pyIndex_spec body node i hi
  have hij : i ≠ j := by
    intro he
    rw [he, hj] at hget
    exact hx (Option.some.inj hget)
  rw [List.get?_set_ne m body hij]
  exact hj

theorem processAll_done_frame {gen : Nat → GenResult}
    {parseStub : String → Option PyNode} :
    ∀ {nodes body : List PyNode} {fuel k : Nat} {b : List PyNode} {t : Trace},
      processAll gen parseStub body nodes fuel k = .done b t →
      ∀ j x, body.get? j = some x → x ∉ nodes → b.get? j = some x := by
  intro nodes
  induction nodes with
  | nil =>
    intro body fuel k b t h j x hj _
    simp only [processAll, Outcome.done.injEq] at h
    rw [← h.1]
    exact hj
  | cons nd rest ih =>
    intro body fuel k b t h j x hj hx
    rw [processAll] at h
    cases hr : generate_docs_for_block_and_change_node gen parseStub body nd fuel k with
    | fatal e1 t1 => simp [hr] at h
    | done b1 t1 =>
      simp only [hr] at h
      cases hrest : processAll gen parseStub b1 rest fuel (k + t1.calls) with
      | fatal e2 t2 => rw [hrest] at h; simp [prependTrace] at h
      | done b2 t2 =>
        rw [hrest] at h
        simp only [prependTrace, Outcome.done.injEq] at h
        obtain ⟨rfl, rfl⟩ := h
        have hx1 : x ≠ nd := fun hxe => hx (hxe ▸ List.mem_cons_self nd rest)
        exact ih hrest j x (gdbc_done_frame hr hj hx1)
          (fun hmem => hx (List.mem_cons_of_mem _ hmem))

/-! ### C1 — entity selection -/

/-- The selection property exactly as claim C1 states it: every class
definition at every depth is selected; every function definition whose
parent annotation is the module itself is selected; no function whose
parent is not the module is selected. -/
def entitySelectionClaim (t : PyNode) : Prop :=
  (∀ pr ∈ ast_walk t, pr.1.kind = .classDef → pr.1 ∈ selectedEntities t) ∧
  (∀ pr ∈ ast_walk t, pr.1.kind = .functionDef → pr.2 = some t →
    pr.1 ∈ selectedEntities t) ∧
  (∀ pr ∈ ast_walk t, pr.1.kind = .functionDef → pr.2 ≠ some t →
    pr.1 ∉ selectedEntities t)

/-- C1, counterexample: on the source shape `def f(): def g(): ...` the
selection claim fails — the nested function `g` has the function `f`, not
the module, as its parent, yet the loop selects it, because `is_method`
only excludes functions whose parent is a class definition. -/
theorem c1_counterexample : ¬ entitySelectionClaim exTreeNestedFn := by
  intro h
  have hw : (fnG, some fnF) ∈ ast_walk exTreeNestedFn := by
    simp [ast_walk, exTreeNestedFn, fnF, fnG, walkFrom_cons, walkFrom_nil,
      PyNode.children]
  have hsel : selectedEntities exTreeNestedFn = [fnF, fnG] := by
    simp [selectedEntities, ast_walk, exTreeNestedFn, fnF, fnG, walkFrom_cons,
      walkFrom_nil, PyNode.children, selectNode, PyNode.kind, is_method]
  have hnp : (some fnF : Option PyNode) ≠ some exTreeNestedFn := by decide
  exact h.2.2 (fnG, some fnF) hw rfl hnp (by rw [hsel]; simp)

/-- C1 (amended): the `ast.walk` loop selects every class definition at
every nesting depth and every function definition whose parent annotation
is not a class definition — this admits top-level functions and functions
nested inside other functions alike — and everything it selects is of one
of those two shapes, so methods (functions whose parent is a class) are
never selected on their own. -/
theorem c1_entity_selection (t : PyNode) :
    (∀ n p, (n, p) ∈ ast_walk t → n.kind = .classDef → n ∈ selectedEntities t) ∧
    (∀ n p, (n, p) ∈ ast_walk t → n.kind = .functionDef → is_method p = false →
      n ∈ selectedEntities t) ∧
    (∀ n, n ∈ selectedEntities t → ∃ p, (n, p) ∈ ast_walk t ∧
      (n.kind = .classDef ∨ (n.kind = .functionDef ∧ is_method p = false))) := by
  refine ⟨?_, ?_, ?_⟩
  · intro n p hw hk
    exact mem_selectedEntities hw (selectNode_class hk)
  · intro n p hw hk hm
    exact mem_selectedEntities hw (selectNode_fn hk hm)
  · intro n hn
    rw [selectedEntities, List.mem_filterMap] at hn
    obtain ⟨⟨m, p⟩, hw, hs⟩ := hn
    unfold selectNode at hs
    by_cases h1 : (m, p).1.kind = .classDef
    · rw [if_pos h1] at hs
      obtain rfl := Option.some.inj hs
      exact ⟨p, hw, Or.inl h1⟩
    · rw [if_neg h1] at hs
      by_cases h2 : (m, p).1.kind = .functionDef ∧ is_method (m, p).2 = false
      · rw [if_pos h2] at hs
        obtain rfl := Option.some.inj hs
        exact ⟨p, hw, Or.inr h2⟩
      · rw [if_neg h2] at hs
        exact absurd hs (by simp)

/-- Walk of the selection fixture, evaluated once for reuse in witnesses. -/
theorem ast_walk_exTreeSel :
    ast_walk exTreeSel
      = [(exTreeSel, none), (stmtA, some exTreeSel), (fnTop, some exTreeSel),
         (clsD, some exTreeSel), (methM, some clsD)] := by
  simp [ast_walk, exTreeSel, stmtA, fnTop, clsD, methM, walkFrom_cons,
    walkFrom_nil, PyNode.children]

/-- Witness for C1: on a module with a statement, a top-level function and
a class containing a method, the class and the top-level function are
selected via the amended theorem. -/
theorem c1_entity_selection_witness :
    clsD ∈ selectedEntities exTreeSel ∧ fnTop ∈ selectedEntities exTreeSel := by
  constructor
  · exact (c1_entity_selection exTreeSel).1 clsD (some exTreeSel)
      (by rw [ast_walk_exTreeSel]; simp) rfl
  · exact (c1_entity_selection exTreeSel).2.1 fnTop (some exTreeSel)
      (by rw [ast_walk_exTreeSel]; simp) rfl rfl

/-! ### C2 — positional splice frame property -/

/-- C2: a successful splice replaces exactly the slot holding the selected
entity: the index is the position where `tree.body.index(node)` finds the
node, the body keeps its length, and every other slot is unchanged;
moreover, across the whole entity loop, a run that completes leaves the
module body with its original number of top-level statements, and every
statement that is not one of the processed entities is unchanged and still
at its original position.  (A completed run splices each entity exactly once
at the index found in its input body, which is identical across parse
retries, so slots holding non-selected statements are never targeted.) -/
theorem c2_positional_splice (gen : Nat → GenResult)
    (parseStub : String → Option PyNode) (body : List PyNode) (node : PyNode)
    (k : Nat) :
    (∀ b' t, attemptEntity gen parseStub body node k = (.spliced b', t) →
      ∃ i, pyIndex body node = some i ∧ i < body.length ∧
        body.get? i = some node ∧ b'.length = body.length ∧
        ∀ j, j ≠ i → b'.get? j = body.get? j) ∧
    (∀ nodes fuel k0 b'' t'',
      processAll gen parseStub body nodes fuel k0 = .done b'' t'' →
      b''.length = body.length ∧
      ∀ j x, body.get? j = some x → x ∉ nodes → b''.get? j = some x) := by
  constructor
  · intro b' t h
    obtain ⟨i, m, hi, rfl⟩ := attemptEntity_spliced_inv h
    obtain ⟨hlt, hget⟩ := pyIndex_spec body node i hi
    exact ⟨i, hi, hlt, hget, List.length_set .., fun j hj =>
      List.get?_set_ne m body (Ne.symm hj)⟩
  · intro nodes fuel k0 b'' t'' h
    exact ⟨processAll_done_length h, processAll_done_frame h⟩

/-- Witness for C2: splicing the one-statement replacement into the
two-statement body `[stmtA, fnTop]` at the function's slot keeps the other
statement in place at index 0 and preserves the length; running the whole
loop over the selected entity `[fnTop]` leaves the non-selected `stmtA`
unchanged at its original position 0. -/
theorem c2_positional_splice_witness :
    (∃ i, pyIndex exBody fnTop = some i ∧ i < exBody.length ∧
      exBody.get? i = some fnTop ∧
      ([stmtA, docMod1] : List PyNode).length = exBody.length ∧
      ∀ j, j ≠ i → ([stmtA, docMod1] : List PyNode).get? j = exBody.get? j) ∧
    ([stmtA, docMod1] : List PyNode).length = exBody.length ∧
    ([stmtA, docMod1] : List PyNode).get? 0 = some stmtA := by
  refine ⟨(c2_positional_splice genAllOk parseOk1 exBody fnTop 0).1 [stmtA, docMod1]
    ⟨1, 0, 0, []⟩ (by decide), ?_, ?_⟩
  · exact ((c2_positional_splice genAllOk parseOk1 exBody fnTop 0).2 [fnTop] 1 0
      [stmtA, docMod1] ⟨1, 0, 0, []⟩ (by decide)).1
  · exact ((c2_positional_splice genAllOk parseOk1 exBody fnTop 0).2 [fnTop] 1 0
      [stmtA, docMod1] ⟨1, 0, 0, []⟩ (by decide)).2 0 stmtA (by decide) (by decide)

/-! ### C3 — rate-limit handling -/

/-- C3: on the generation step, a successful first call makes exactly one
service call with no sleep and no rate-limit notice; a `RateLimitError`
followed by a success makes exactly two calls with one notice and one
21-unit sleep and does not abort the entity for rate limiting; two
consecutive `RateLimitError`s make exactly two calls — never a third — and
terminate the entity (and the whole retry loop) fatally. -/
theorem c3_rate_limit (gen : Nat → GenResult) (parseStub : String → Option PyNode)
    (body : List PyNode) (node : PyNode) (k fuel : Nat) :
    (∀ s, gen k = .ok s →
      (attemptEntity gen parseStub body node k).2.calls = 1 ∧
      (attemptEntity gen parseStub body node k).2.sleeps = [] ∧
      (attemptEntity gen parseStub body node k).2.rlNotices = 0) ∧
    (∀ s, gen k = .rateLimited → gen (k + 1) = .ok s →
      (attemptEntity gen parseStub body node k).2.calls = 2 ∧
      (attemptEntity gen parseStub body node k).2.sleeps = [21] ∧
      (attemptEntity gen parseStub body node k).2.rlNotices = 1 ∧
      (attemptEntity gen parseStub body node k).1 ≠ .fatal .rateLimited) ∧
    (gen k = .rateLimited → gen (k + 1) = .rateLimited →
      attemptEntity gen parseStub body node k = (.fatal .rateLimited, ⟨2, 1, 0, [21]⟩) ∧
      generate_docs_for_block_and_change_node gen parseStub body node (fuel + 1) k
        = .fatal .rateLimited ⟨2, 1, 0, [21]⟩) := by
  refine ⟨?_, ?_, ?_⟩
  · intro s hg
    cases hs : spliceStep parseStub body node s <;>
      simp [attemptEntity, genPhase, hg, hs, Trace.append]
  · intro s hg1 hg2
    cases hs : spliceStep parseStub body node s with
    | spliced b => simp [attemptEntity, genPhase, hg1, hg2, hs, Trace.append]
    | parseFailed => simp [attemptEntity, genPhase, hg1, hg2, hs, Trace.append]
    | fatal e =>
      obtain rfl := spliceStep_fatal hs
      simp [attemptEntity, genPhase, hg1, hg2, hs, Trace.append]
  · intro hg1 hg2
    have ha : attemptEntity gen parseStub body node k
        = (.fatal .rateLimited, ⟨2, 1, 0, [21]⟩) := by
      simp [attemptEntity, genPhase, hg1, hg2]
    refine ⟨ha, ?_⟩
    rw [generate_docs_for_block_and_change_node]
    simp only [ha]

/-- Witness for C3: with a stub that rate-limits exactly once, the attempt
makes two calls, sleeps 21 once and proceeds; with a stub that always
rate-limits, the run aborts fatally after exactly two calls. -/
theorem c3_rate_limit_witness :
    ((attemptEntity genRLOnce parseOk1 exBody fnTop 0).2.calls = 2 ∧
      (attemptEntity genRLOnce parseOk1 exBody fnTop 0).2.sleeps = [21] ∧
      (attemptEntity genRLOnce parseOk1 exBody fnTop 0).2.rlNotices = 1 ∧
      (attemptEntity genRLOnce parseOk1 exBody fnTop 0).1 ≠ .fatal .rateLimited) ∧
    generate_docs_for_block_and_change_node genRLAlways parseOk1 exBody fnTop 5 0
      = .fatal .rateLimited ⟨2, 1, 0, [21]⟩ := by
  constructor
  · exact ((c3_rate_limit genRLOnce parseOk1 exBody fnTop 0 0).2.1 "t1"
      (by decide) (by decide))
  · exact ((c3_rate_limit genRLAlways parseOk1 exBody fnTop 0 4).2.2
      (by decide) (by decide)).2

/-! ### C4 — parse-failure retry -/

/-- Core computation behind C4: with a generation stub that always returns
the text of its call index and a parse stub that rejects the texts of the
first `F` calls and accepts the next, the engine performs `F` failed
attempts then succeeds, with `F + 1` generation calls, `F` parse-failure
diagnostics, and no sleeps. -/
theorem gdbc_retry_run (txt : Nat → String) (parseStub : String → Option PyNode)
    (body : List PyNode) (node : PyNode) (i : Nat) (m : PyNode)
    (hi : pyIndex body node = some i) :
    ∀ F k0 fuel, F < fuel →
      (∀ j, j < F → parseStub (txt (k0 + j)) = none) →
      parseStub (txt (k0 + F)) = some m →
      generate_docs_for_block_and_change_node (fun k => .ok (txt k)) parseStub body
        node fuel k0 = .done (body.set i m) ⟨F + 1, 0, F, []⟩ := by
  intro F
  induction F with
  | zero =>
    intro k0 fuel hfuel hfail hsucc
    obtain ⟨fuel, rfl⟩ : ∃ f, fuel = f + 1 :=
      ⟨fuel - 1, by omega⟩
    rw [generate_docs_for_block_and_change_node]
    have ha : attemptEntity (fun k => .ok (txt k)) parseStub body node k0
        = (.spliced (body.set i m), ⟨1, 0, 0, []⟩) := by
      simp only [attemptEntity, genPhase, spliceStep, hi]
      rw [show txt k0 = txt (k0 + 0) from by rw [Nat.add_zero], hsucc]
    simp only [ha]
  | succ F ih =>
    intro k0 fuel hfuel hfail hsucc
    obtain ⟨fuel, rfl⟩ : ∃ f, fuel = f + 1 :=
      ⟨fuel - 1, by omega⟩
    rw [generate_docs_for_block_and_change_node]
    have ha : attemptEntity (fun k => .ok (txt k)) parseStub body node k0
        = (.parseFailed, ⟨1, 0, 1, []⟩) := by
      have h0 : parseStub (txt k0) = none := by
        have := hfail 0 (Nat.succ_pos _)
        rwa [Nat.add_zero] at this
      simp only [attemptEntity, genPhase, spliceStep, hi, h0]
      rfl
    simp only [ha]
    have hrec := ih (k0 + 1) fuel (by omega)
      (fun j hj => by
        have := hfail (j + 1) (by omega)
        rwa [show k0 + (j + 1) = k0 + 1 + j from by omega] at this)
      (by rwa [show k0 + 1 + F = k0 + (F + 1) from by omega])
    rw [show k0 + (⟨1, 0, 1, []⟩ : Trace).calls = k0 + 1 from rfl, hrec]
    simp only [prependTrace, Trace.append, Outcome.done.injEq, Trace.mk.injEq,
      List.append_nil, List.nil_append]
    exact ⟨trivial, by omega, trivial, by omega, trivial⟩

/-- C4: for every K ≥ 1, with a generation client whose text fails to parse
on the first K−1 attempts and parses on the Kth, the engine terminates
successfully after exactly K generation calls, emitting K−1 parse-failure
diagnostics, each failed attempt restarting the entity from the generation
step (sufficient fuel stands in for the unbounded recursion). -/
theorem c4_parse_retry_termination (txt : Nat → String)
    (parseStub : String → Option PyNode) (body : List PyNode) (node : PyNode)
    (i : Nat) (m : PyNode) (K k0 fuel : Nat) (hi : pyIndex body node = some i)
    (hK : 1 ≤ K) (hfuel : K ≤ fuel)
    (hfail : ∀ j, j < K - 1 → parseStub (txt (k0 + j)) = none)
    (hsucc : parseStub (txt (k0 + (K - 1))) = some m) :
    generate_docs_for_block_and_change_node (fun k => .ok (txt k)) parseStub body
      node fuel k0 = .done (body.set i m) ⟨K, 0, K - 1, []⟩ := by
  have h := gdbc_retry_run txt parseStub body node i m hi (K - 1) k0 fuel
    (by omega) hfail hsucc
  rwa [show K - 1 + 1 = K from by omega] at h

/-- Witness for C4 at K = 2: the first generated text fails to parse, the
second parses; the engine succeeds after exactly two calls with one
diagnostic. -/
theorem c4_parse_retry_termination_witness :
    generate_docs_for_block_and_change_node (fun k => .ok ("t" ++ toString k))
      parseAfterOne exBody fnTop 2 0 = .done [stmtA, docMod1] ⟨2, 0, 1, []⟩ := by
  have h := c4_parse_retry_termination (fun k => "t" ++ toString k) parseAfterOne
    exBody fnTop 1 docMod1 2 0 2 (by decide) (by omega) (by omega)
    (by intro j hj; have hj0 : j = 0 := by omega
        subst hj0; decide)
    (by decide)
  exact h

/-! ### C5 — re-parse statement count -/

/-- The re-parse property exactly as claim C5 states it, for a mutated
module body: re-parsing the serialized output yields as many top-level
statements as the mutated tree has body slots. -/
def reparseCountClaim (body : List PyNode) : Prop :=
  renderedTopLevelCount body = body.length

/-- C5, counterexample: the pipeline happily splices a replacement unit that
parses to two top-level statements into a single slot (line 115 assigns the
whole parsed `Module` with no arity check); unparsing then inlines both
statements, so the re-parsed output has 2 top-level statements while the
mutated tree's body has length 1. -/
theorem c5_counterexample :
    generate_docs_for_block_and_change_node genAllOk parseOk2 [fnTop] fnTop 1 0
      = .done [docMod2] ⟨1, 0, 0, []⟩ ∧ ¬ reparseCountClaim [docMod2] := by
  constructor
  · decide
  · unfold reparseCountClaim
    decide

/-- C5 (amended): re-parsing the serialized output yields a tree with the
same top-level statement count as the mutated tree provided every spliced
replacement unit consists of exactly one top-level statement; without that
proviso each spliced slot contributes as many statements as its replacement
module has children. -/
theorem c5_reparse_count (body : List PyNode)
    (h : ∀ n ∈ body, n.kind = .module → n.children.length = 1) :
    renderedTopLevelCount body = body.length := by
  induction body with
  | nil => rfl
  | cons n rest ih =>
    have hrest := ih fun x hx hk => h x (List.mem_cons_of_mem _ hx) hk
    simp only [renderedTopLevelCount, List.map_cons, List.sum_cons,
      List.length_cons] at hrest ⊢
    cases hk : n.kind with
    | module =>
      simp only [hk]
      rw [h n (List.mem_cons_self _ _) hk]
      omega
    | classDef => simp only [hk]; omega
    | functionDef => simp only [hk]; omega
    | other => simp only [hk]; omega

/-- Witness for C5: a body whose spliced slot holds a one-statement
replacement unit re-parses to the same top-level count. -/
theorem c5_reparse_count_witness :
    renderedTopLevelCount [docMod1, stmtA] = ([docMod1, stmtA] : List PyNode).length :=
  c5_reparse_count [docMod1, stmtA] (by decide)

/-! ### C6 — invalid input file -/

/-- C6: when the input source text fails to parse, the per-file pipeline
propagates the parse error with an empty side-effect trace — zero
generation calls — and does not reach the file-overwriting outcome
(`FileOutcome.written` is the only outcome that models reopening the file
for writing). -/
theorem c6_input_parse_error_propagates (parseSource : String → Option PyNode)
    (gen : Nat → GenResult) (parseStub : String → Option PyNode) (source : String)
    (fuel : Nat) (h : parseSource source = none) :
    generate_docs_for_code_from_file parseSource gen parseStub source fuel
      = .inputParseError ⟨0, 0, 0, []⟩ := by
  simp [generate_docs_for_code_from_file, h, Trace.empty]

/-- Witness for C6 on a concrete unparseable source. -/
theorem c6_input_parse_error_propagates_witness :
    generate_docs_for_code_from_file parseSourceStub genAllOk parseOk1 "def f(:" 3
      = .inputParseError ⟨0, 0, 0, []⟩ :=
  c6_input_parse_error_propagates parseSourceStub genAllOk parseOk1 "def f(:" 3
    (by decide)

/-! ### C7 — the generation client call -/

/-- C7: `generate_docs` issues exactly one service call — the request list
is a singleton regardless of the response — carrying a single
user-tagged message with the built prompt, the fixed model
`gpt-3.5-turbo`, the fixed `max_tokens` 2048 and the fixed temperature
1.2, and returns the first choice's message content trimmed of surrounding
whitespace; it performs no retry of its own. -/
theorem c7_generate_docs_single_call (service : ChatRequest → List String)
    (g : DocumentationGenerator) (code : String) :
    (generate_docs service g code).2
      = [⟨"gpt-3.5-turbo", 2048, 1.2, [("user", get_prompt g code)]⟩] ∧
    ∀ c rest,
      service ⟨"gpt-3.5-turbo", 2048, 1.2, [("user", get_prompt g code)]⟩
        = c :: rest →
      (generate_docs service g code).1 = some c.trim := by
  constructor
  · rfl
  · intro c rest h
    simp [generate_docs, h]

/-- Witness for C7: with a service stub returning one whitespace-padded
choice, `generate_docs` returns its trimmed content. -/
theorem c7_generate_docs_single_call_witness :
    (generate_docs serviceEcho (DocumentationGenerator.init "Python") "pass").1
      = some ("  answer  ".trim) :=
  (c7_generate_docs_single_call serviceEcho
    (DocumentationGenerator.init "Python") "pass").2 "  answer  " [] rfl

/-! ### C8 — no write on fatal failure -/

/-- C8: the per-file pipeline opens the file for writing only after every
selected entity has been processed to completion; if processing aborts with
an uncaught error (second `RateLimitError`, service error, or the
`ValueError` of `tree.body.index` on a non-top-level entity), the outcome is
`fatalError` — never the file-overwriting outcome `written`, so the on-disk
contents stay unchanged. -/
theorem c8_no_write_on_fatal (parseSource : String → Option PyNode)
    (gen : Nat → GenResult) (parseStub : String → Option PyNode) (source : String)
    (fuel : Nat) (tree : PyNode) (e : Fatal) (t : Trace)
    (hp : parseSource source = some tree)
    (hf : processAll gen parseStub tree.children (selectedEntities tree) fuel 0
      = .fatal e t) :
    generate_docs_for_code_from_file parseSource gen parseStub source fuel
      = .fatalError e t := by
  simp [generate_docs_for_code_from_file, hp, hf]

/-- Selection on the nested-class fixture `class A: class B`, evaluated once
for the C8 witness: the walk selects both classes, though only `A` sits in
the module body. -/
theorem selectedEntities_exTreeNestedCls :
    selectedEntities exTreeNestedCls = [clsA, clsB] := by
  simp [selectedEntities, ast_walk, exTreeNestedCls, clsA, clsB, walkFrom_cons,
    walkFrom_nil, PyNode.children, selectNode, PyNode.kind, is_method]

/-- Witness for C8: on `class A: class B`, splicing `A` succeeds and then
the index lookup for the nested class `B` raises `ValueError`; the run
aborts fatally after two generation calls and the file is never written. -/
theorem c8_no_write_on_fatal_witness :
    generate_docs_for_code_from_file parseSourceStub genAllOk parseOk1 "nested" 2
      = .fatalError .valueError ⟨2, 0, 0, []⟩ := by
  refine c8_no_write_on_fatal parseSourceStub genAllOk parseOk1 "nested" 2
    exTreeNestedCls .valueError ⟨2, 0, 0, []⟩ (by decide) ?_
  rw [selectedEntities_exTreeNestedCls]
  decide

/-! ### C9 — failed attempt leaves the tree unchanged -/

/-- C9: when the parse of the generated replacement fails, no assignment
into the module body happens on that attempt (`AttemptResult.parseFailed`
carries no body, since the right-hand side of line 115 raises before the
slot assignment), and the recursive retry runs on exactly the same body the
failed attempt started from. -/
theorem c9_failed_attempt_keeps_tree (gen : Nat → GenResult)
    (parseStub : String → Option PyNode) (body : List PyNode) (node : PyNode)
    (fuel k : Nat) (t : Trace)
    (h : attemptEntity gen parseStub body node k = (.parseFailed, t)) :
    generate_docs_for_block_and_change_node gen parseStub body node (fuel + 1) k
      = prependTrace t (generate_docs_for_block_and_change_node gen parseStub body
          node fuel (k + t.calls)) := by
  rw [generate_docs_for_block_and_change_node]
  simp only [h]

/-- Witness for C9: a concrete failed attempt retries on the same body. -/
theorem c9_failed_attempt_keeps_tree_witness :
    generate_docs_for_block_and_change_node genAllOk parseFailAll exBody fnTop 1 0
      = prependTrace ⟨1, 0, 1, []⟩
          (generate_docs_for_block_and_change_node genAllOk parseFailAll exBody
            fnTop 0 1) :=
  c9_failed_attempt_keeps_tree genAllOk parseFailAll exBody fnTop 0 0
    ⟨1, 0, 1, []⟩ (by decide)

/-! ### C10 — literal directory-name matching -/

/-- C10: `is_ignored_directory` returns `true` exactly when the name is
string-equal to one of the `ignored_dirs` entries; wildcard-looking entries
are never pattern-matched — `module.pyc` is not ignored while the literal
string `*.pyc` is. -/
theorem c10_ignored_dirs_literal (lang : String) :
    (∀ name, is_ignored_directory (DocumentationGenerator.init lang) name = true ↔
      name ∈ (DocumentationGenerator.init lang).ignored_dirs) ∧
    is_ignored_directory (DocumentationGenerator.init lang) "module.pyc" = false ∧
    is_ignored_directory (DocumentationGenerator.init lang) "*.pyc" = true := by
  refine ⟨fun name => ?_, rfl, rfl⟩
  simp [is_ignored_directory]

end GraduateWork
